import Mathlib

/-!
Shallow embedding of `src/src/data2form.js` (the Data2Form form-filling
utility) and proofs about it.

Modelling conventions:
* A DOM input control is a `Control` record: its `name` and `type`
  attributes, its `value`, its `checked` flag (meaningful for
  checkbox/radio) and, for select controls, the list of its option values.
* The form is the ordered list of its controls (document order);
  `form_element.querySelectorAll` by name is `List.filter` on the `name`
  field, which returns the matching controls in document order.
* JavaScript mutation of live DOM nodes is modelled by explicit state
  passing: each fill strategy returns the updated control(s), and the
  orchestrator writes them back into the form list at the positions the
  live references occupied.
* A thrown JavaScript value is `Except.error`; the two kinds of thrown
  values in the source are thrown strings and the `ReferenceError` raised
  when `fillSelect` evaluates a template literal mentioning the
  out-of-scope variable `key` (see `fillSelect` below).
* `console.error` diagnostics and callback invocations are recorded in
  logs (`diags`, `calls`) threaded through the fill loop, so that claims
  about surfaced diagnostics and synchronous callback invocation are
  statable.
* The jQuery change-trigger after a successful select fill dispatches an
  event outside the embedded state and is not modelled; the settings map
  is an insertion-ordered association list, like a JavaScript object.
-/

namespace Data2Form

/-- A single form input control: `name`/`type` attributes, current `value`,
`checked` flag and (for selects) the declared option values. -/
structure Control where
  name : String
  type : String
  value : String
  checked : Bool
  options : List String
  deriving Repr, DecidableEq

/-- A JavaScript value that can be thrown or recorded in `result.errors`:
either a thrown/pushed string, or a `ReferenceError` object (carrying its
message) raised by evaluating an out-of-scope variable. -/
inductive JsError where
  | str : String → JsError
  | refError : String → JsError
  deriving Repr, DecidableEq

/-- The settings mapping: a JavaScript object from setting name to boolean,
modelled as an insertion-ordered association list. -/
abbrev Settings := List (String × Bool)

/-- The default settings object of `Data2Form`. -/
def defaultSettings : Settings :=
  [("throwOnMissingField", true), ("throwOnUnsupportedType", true),
   ("throwOnFileError", true), ("throwOnInvalidSelectOption", true)]

/-- Reading `settings.k`: a present key yields its value, an absent key is
`undefined`, which is falsy in every `if (settings.k)` read site. -/
def getSetting (s : Settings) (k : String) : Bool :=
  match s.lookup k with
  | some b => b
  | none => false

/-- JavaScript property write `s[k] = v`: overwrite a present key in place,
append an absent key in insertion order. -/
def setKey (s : Settings) (k : String) (v : Bool) : Settings :=
  if (s.lookup k).isSome then
    s.map (fun p => if p.1 == k then (k, v) else p)
  else
    s ++ [(k, v)]

/-- The `setting(key, value)` method: on `key == 'strict'` first overwrite
every key currently in the settings object (the `for (let i in settings)`
loop), then unconditionally perform `settings[key] = value`. -/
def setting (s : Settings) (key : String) (value : Bool) : Settings :=
  let s1 := if key == "strict" then s.map (fun p => (p.1, value)) else s
  setKey s1 key value

/-- The fixed `supportedTypes` array of the source. -/
def supportedTypes : List String :=
  ["checkbox", "color", "date", "email", "file", "hidden", "month", "number",
   "password", "radio", "range", "search", "tel", "text", "time", "url",
   "week", "select-one", "datetime-local"]

/-- The callback registry: at most one callback per input type. A callback
receives the primary control and the raw value and may throw. -/
abbrev Callbacks := String → Option (Control → String → Except JsError Unit)

/-- The empty callback registry. -/
def noCallbacks : Callbacks := fun _ => none

/-- `fillFile(field, value)`: only the empty string is accepted; a non-empty
value throws when `throwOnFileError` is set and otherwise reports
not-filled. The control is never mutated. -/
def fillFile (settings : Settings) (field : Control) (value : String) :
    Except JsError Bool :=
  if value != "" then
    if getSetting settings "throwOnFileError" then
      .error (.str ("Field '" ++ field.name ++ "' only supports empty string"))
    else
      .ok false
  else
    .ok true

/-- JavaScript `values.split(',')`: split on every comma, keeping empty
segments (so the empty string splits to `[""]`, and `"a,"` to
`["a", ""]`). Written by structural recursion over the character list so
that concrete instances evaluate in the kernel. -/
def splitCommas (s : String) : List String :=
  (s.toList.foldr
    (fun ch groups =>
      if ch = ',' then [] :: groups
      else
        match groups with
        | [] => [[ch]]
        | g :: gs => (ch :: g) :: gs)
    [[]]).map (fun cs => String.mk cs)

/-- `fillCheckbox(fields, values)`: split the incoming value on commas, set
each control's `checked` to membership of its own value in the split list,
and report whether any control was checked. Returns the flag together with
the updated controls (the mutation of the live node list). -/
def fillCheckbox (fields : List Control) (values : String) :
    Bool × List Control :=
  let vals := splitCommas values
  fields.foldl
    (fun acc field =>
      let checked := vals.contains field.value
      (acc.1 || checked, acc.2 ++ [{ field with checked := checked }]))
    (false, [])

/-- `fillRadio(fields, value)`: set each control's `checked` to equality of
its value with the incoming value; report whether any control was checked. -/
def fillRadio (fields : List Control) (value : String) :
    Bool × List Control :=
  fields.foldl
    (fun acc field =>
      let checked := value == field.value
      (acc.1 || checked, acc.2 ++ [{ field with checked := checked }]))
    (false, [])

/-- `fillField(field, value)`: assign the raw value directly; always
succeeds (the source returns `true`), so only the updated control is
returned. -/
def fillField (field : Control) (value : String) : Control :=
  { field with value := value }

/-- `fillSelect(field, value)`. When no option value matches: if
`throwOnInvalidSelectOption` is set the source throws a template literal
that mentions the variable `key`, which is not in scope inside
`fillSelect` (it is the loop variable of `fill`); evaluating the literal
therefore raises `ReferenceError: key is not defined`, modelled as
`JsError.refError`. Without the setting it returns `false` and mutates
nothing (`.ok none`). When an option matches, the value is assigned
(`.ok (some updatedField)`, the source's `return true` path). -/
def fillSelect (settings : Settings) (field : Control) (value : String) :
    Except JsError (Option Control) :=
  let optionExists := field.options.any (fun option => option == value)
  if !optionExists then
    if getSetting settings "throwOnInvalidSelectOption" then
      .error (.refError "key is not defined")
    else
      .ok none
  else
    .ok (some { field with value := value })

/-- The state threaded through the `fill` loop: the (live) form, the
`result` object being built (`success`, `errors`), the `console.error`
log, and the log of callback invocations (argument pairs). -/
structure FillState where
  form : List Control
  success : Bool
  errors : List JsError
  diags : List JsError
  calls : List (Control × String)
  deriving Repr, DecidableEq

/-- Record an error in the result (`result.success = false`,
`result.errors.push(error)`) and, when `surface` holds, also emit it on the
diagnostics channel (`console.error`). -/
def recordError (st : FillState) (e : JsError) (surface : Bool) : FillState :=
  { st with
    success := false
    errors := st.errors ++ [e]
    diags := if surface then st.diags ++ [e] else st.diags }

/-- The `catch` block of `fill`: push the thrown value, mark failure, and
always `console.error` it. -/
def caught (st : FillState) (e : JsError) : FillState :=
  recordError st e true

/-- Write the mutated node list back into the form: the i-th control whose
`name` is `nm` becomes the i-th element of `news` (live-reference
semantics of the `NodeList` handed to checkbox/radio strategies). -/
def writeBack : List Control → String → List Control → List Control
  | [], _, _ => []
  | c :: rest, nm, news =>
    if c.name == nm then
      match news with
      | [] => c :: writeBack rest nm []
      | n :: ns => n :: writeBack rest nm ns
    else
      c :: writeBack rest nm news

/-- Mutation of `input.nodes[0]`: replace the first control named `nm` in
the form with the updated control. -/
def setFirstByName : List Control → String → Control → List Control
  | [], _, _ => []
  | c :: rest, nm, c' =>
    if c.name == nm then c' :: rest else c :: setFirstByName rest nm c'

/-- The tail of the `try` block: `if (filled && callbacks[input.type])`
invoke the callback with the primary (live, hence possibly just mutated)
control and the raw value; a throw from the callback falls into the same
`catch` as the strategies. -/
def runCallback (cbs : Callbacks) (st : FillState) (ty : String)
    (node : Control) (value : String) (filled : Bool) : FillState :=
  if filled then
    match cbs ty with
    | some f =>
      let st' := { st with calls := st.calls ++ [(node, value)] }
      match f node value with
      | .ok _ => st'
      | .error e => caught st' e
    | none => st
  else
    st

/-- One iteration of the `for (let key in data)` loop of `fill`: resolve
the field by name, report a missing or unsupported field, otherwise
dispatch on the first control's type inside the failure boundary and run
the registered callback on a successful fill. -/
def fillStep (settings : Settings) (cbs : Callbacks) (st : FillState)
    (kv : String × String) : FillState :=
  match st.form.filter (fun c => c.name == kv.1) with
  | [] =>
    recordError st (.str ("Field '" ++ kv.1 ++ "' does not exist"))
      (getSetting settings "throwOnMissingField")
  | first :: rest =>
    if !(supportedTypes.contains first.type) then
      recordError st (.str ("Field '" ++ kv.1 ++ "' type not supported"))
        (getSetting settings "throwOnUnsupportedType")
    else if first.type == "file" then
      match fillFile settings first kv.2 with
      | .error e => caught st e
      | .ok filled => runCallback cbs st first.type first kv.2 filled
    else if first.type == "checkbox" then
      let r := fillCheckbox (first :: rest) kv.2
      runCallback cbs { st with form := writeBack st.form kv.1 r.2 }
        first.type (r.2.getD 0 first) kv.2 r.1
    else if first.type == "radio" then
      let r := fillRadio (first :: rest) kv.2
      runCallback cbs { st with form := writeBack st.form kv.1 r.2 }
        first.type (r.2.getD 0 first) kv.2 r.1
    else if first.type == "select-one" then
      match fillSelect settings first kv.2 with
      | .error e => caught st e
      | .ok none => runCallback cbs st first.type first kv.2 false
      | .ok (some first') =>
        runCallback cbs { st with form := setFirstByName st.form kv.1 first' }
          first.type first' kv.2 true
    else
      let first' := fillField first kv.2
      runCallback cbs { st with form := setFirstByName st.form kv.1 first' }
        first.type first' kv.2 true

/-- The initial state of a `fill` call: fresh `result` with `success = true`
and no errors, empty logs, the live form. -/
def initState (form : List Control) : FillState :=
  { form := form, success := true, errors := [], diags := [], calls := [] }

/-- `fill(data)`: iterate `fillStep` over the owned key/value pairs of the
data object in iteration order. -/
def fill (settings : Settings) (cbs : Callbacks) (form : List Control)
    (data : List (String × String)) : FillState :=
  data.foldl (fillStep settings cbs) (initState form)

/-- The four recognized setting keys. -/
def recognizedSettings : List String :=
  ["throwOnMissingField", "throwOnUnsupportedType", "throwOnFileError",
   "throwOnInvalidSelectOption"]

/-- A plain text input named `username`. -/
def ctrlUsername : Control :=
  { name := "username", type := "text", value := "", checked := false, options := [] }

/-- A plain text input named `nickname`. -/
def ctrlNickname : Control :=
  { name := "nickname", type := "text", value := "", checked := false, options := [] }

/-- A select control named `country` whose only option value is `US`. -/
def ctrlCountry : Control :=
  { name := "country", type := "select-one", value := "US", checked := false,
    options := ["US"] }

/-- A file input named `avatar`. -/
def ctrlAvatar : Control :=
  { name := "avatar", type := "file", value := "", checked := false, options := [] }

/-- Checkbox group `tags` with values `a`, `b`, `c` (`a` initially checked). -/
def ctrlTagA : Control :=
  { name := "tags", type := "checkbox", value := "a", checked := true, options := [] }

/-- Second checkbox of the `tags` group. -/
def ctrlTagB : Control :=
  { name := "tags", type := "checkbox", value := "b", checked := false, options := [] }

/-- Third checkbox of the `tags` group. -/
def ctrlTagC : Control :=
  { name := "tags", type := "checkbox", value := "c", checked := false, options := [] }

/-- A callback that always throws the string `boom`. -/
def boomFn : Control → String → Except JsError Unit :=
  fun _ _ => .error (.str "boom")

/-- A registry with the throwing callback registered for type `text`. -/
def boomTextCb : Callbacks :=
  fun ty => if ty == "text" then some boomFn else none

/-- A callback that always succeeds. -/
def okFn : Control → String → Except JsError Unit :=
  fun _ _ => .ok ()

/-- A registry with the succeeding callback registered for type `checkbox`. -/
def okCheckboxCb : Callbacks :=
  fun ty => if ty == "checkbox" then some okFn else none

/-! Helper lemmas. -/

theorem recordError_success_iff (st : FillState) (e : JsError) (surface : Bool) :
    ((recordError st e surface).success = true ↔ (recordError st e surface).errors = []) := by
  simp [recordError]

theorem runCallback_success_iff (cbs : Callbacks) (st : FillState) (ty : String)
    (node : Control) (value : String) (filled : Bool)
    (h : st.success = true ↔ st.errors = []) :
    ((runCallback cbs st ty node value filled).success = true
      ↔ (runCallback cbs st ty node value filled).errors = []) := by
  simp only [runCallback]
  split
  · split
    · split
      · simpa using h
      · simp [caught, recordError]
    · exact h
  · exact h

theorem fillStep_success_iff (settings : Settings) (cbs : Callbacks)
    (st : FillState) (kv : String × String)
    (h : st.success = true ↔ st.errors = []) :
    ((fillStep settings cbs st kv).success = true
      ↔ (fillStep settings cbs st kv).errors = []) := by
  simp only [fillStep]
  split
  · exact recordError_success_iff _ _ _
  · split
    · exact recordError_success_iff _ _ _
    · split
      · split
        · simp [caught, recordError]
        · exact runCallback_success_iff _ _ _ _ _ _ h
      · split
        · exact runCallback_success_iff _ _ _ _ _ _ h
        · split
          · exact runCallback_success_iff _ _ _ _ _ _ h
          · split
            · split
              · simp [caught, recordError]
              · exact runCallback_success_iff _ _ _ _ _ _ h
              · exact runCallback_success_iff _ _ _ _ _ _ h
            · exact runCallback_success_iff _ _ _ _ _ _ h

theorem fill_loop_success_iff (settings : Settings) (cbs : Callbacks) :
    ∀ (data : List (String × String)) (st : FillState),
      (st.success = true ↔ st.errors = []) →
      ((data.foldl (fillStep settings cbs) st).success = true
        ↔ (data.foldl (fillStep settings cbs) st).errors = [])
  | [], _, h => h
  | kv :: rest, st, h =>
    fill_loop_success_iff settings cbs rest (fillStep settings cbs st kv)
      (fillStep_success_iff settings cbs st kv h)

/-! Claim theorems. -/

/-- C1: for every data mapping, settings configuration, callback registry and
form, the result of `fill` satisfies `success = true` iff `errors` is empty. -/
theorem fill_success_iff_errors_empty (settings : Settings) (cbs : Callbacks)
    (form : List Control) (data : List (String × String)) :
    ((fill settings cbs form data).success = true
      ↔ (fill settings cbs form data).errors = []) :=
  fill_loop_success_iff settings cbs data (initState form) (by simp [initState])

/-- C9: filling from an empty data mapping returns success with no errors,
mutates no control, invokes no callback and surfaces no diagnostic, for every
settings configuration and callback registry. -/
theorem fill_empty_data (settings : Settings) (cbs : Callbacks)
    (form : List Control) :
    fill settings cbs form []
      = { form := form, success := true, errors := [], diags := [], calls := [] } :=
  rfl

/-- C2 counterexample: a select fill with a value not among the options and
`throwOnInvalidSelectOption = false` records no error at all and reports
overall success, contradicting the claim that the error is recorded and
`success` is `false` in both settings. -/
theorem select_invalid_no_throw_counterexample :
    (fill (setting defaultSettings "throwOnInvalidSelectOption" false)
        noCallbacks [ctrlCountry] [("country", "XX")]).success = true ∧
    (fill (setting defaultSettings "throwOnInvalidSelectOption" false)
        noCallbacks [ctrlCountry] [("country", "XX")]).errors = [] := by
  constructor
  · rfl
  · rfl

/-- C3 counterexample: a file fill with a non-empty value and
`throwOnFileError = false` records no `FileError` (no error at all),
contradicting the claim that a `FileError` entry is produced regardless of
the setting. -/
theorem file_error_no_throw_counterexample :
    (fill (setting defaultSettings "throwOnFileError" false)
        noCallbacks [ctrlAvatar] [("avatar", "x")]).errors = [] ∧
    (fill (setting defaultSettings "throwOnFileError" false)
        noCallbacks [ctrlAvatar] [("avatar", "x")]).success = true := by
  constructor
  · rfl
  · rfl

/-- C4 counterexample: a throwing callback registered for `text` does not
propagate out of `fill`; its thrown value is caught by the per-key failure
boundary and recorded in `result.errors` (and `fill` returns normally),
contradicting the claim that callback exceptions are not caught. -/
theorem callback_error_caught_counterexample :
    (fill defaultSettings boomTextCb [ctrlUsername] [("username", "john")]).errors
        = [JsError.str "boom"] ∧
    (fill defaultSettings boomTextCb [ctrlUsername] [("username", "john")]).success
        = false ∧
    (fill defaultSettings boomTextCb [ctrlUsername] [("username", "john")]).calls
        = [({ ctrlUsername with value := "john" }, "john")] := by
  refine ⟨rfl, rfl, rfl⟩

theorem checkFold (vs : List String) :
    ∀ (fields : List Control) (b : Bool) (acc : List Control),
      fields.foldl
        (fun a f => (a.1 || vs.contains f.value,
                     a.2 ++ [{ f with checked := vs.contains f.value }]))
        (b, acc)
      = (b || fields.any (fun c => vs.contains c.value),
         acc ++ fields.map (fun c => { c with checked := vs.contains c.value }))
  | [], b, acc => by simp
  | f :: rest, b, acc => by
    simp only [List.foldl_cons, List.any_cons, List.map_cons]
    rw [checkFold vs rest]
    simp [Bool.or_assoc]

theorem fillCheckbox_eq (fields : List Control) (values : String) :
    fillCheckbox fields values
      = (fields.any (fun c => (splitCommas values).contains c.value),
         fields.map (fun c => { c with checked := (splitCommas values).contains c.value })) := by
  have h := checkFold (splitCommas values) fields false []
  simpa [fillCheckbox] using h

/-- C5: the checkbox strategy splits the incoming value on commas, checks
each control of the group iff its own value is in the split set, reports
`filled = true` iff some control ends up checked, and on the concrete
mismatch case (value `z` against controls `a`, `b`, `c`) fills nothing,
reports `filled = false` and records no error in a `fill` call. -/
theorem fillCheckbox_spec :
    (∀ (fields : List Control) (values : String),
       (fillCheckbox fields values).2
         = fields.map (fun c => { c with checked := (splitCommas values).contains c.value })) ∧
    (∀ (fields : List Control) (values : String),
       ((fillCheckbox fields values).1 = true
         ↔ ∃ c ∈ (fillCheckbox fields values).2, c.checked = true)) ∧
    fill defaultSettings noCallbacks [ctrlTagA, ctrlTagB, ctrlTagC] [("tags", "z")]
      = { form := [{ ctrlTagA with checked := false }, ctrlTagB, ctrlTagC],
          success := true, errors := [], diags := [], calls := [] } ∧
    (fillCheckbox [ctrlTagA, ctrlTagB, ctrlTagC] "z").1 = false := by
  refine ⟨?_, ?_, by decide, by decide⟩
  · intro fields values
    rw [fillCheckbox_eq]
  · intro fields values
    rw [fillCheckbox_eq]
    simp [List.any_eq_true]

/-- C6: a key matching no control yields exactly one missing-field error
appended to the result, marks the result failed, surfaces the error iff
`throwOnMissingField` is set, mutates no control, and the loop continues
with the remaining keys. -/
theorem fill_missing_field (settings : Settings) (cbs : Callbacks)
    (st : FillState) (key v : String)
    (h : st.form.filter (fun c => c.name == key) = []) :
    fillStep settings cbs st (key, v)
      = { st with success := false,
                  errors := st.errors ++ [.str ("Field '" ++ key ++ "' does not exist")],
                  diags := if getSetting settings "throwOnMissingField"
                           then st.diags ++ [.str ("Field '" ++ key ++ "' does not exist")]
                           else st.diags } ∧
    ∀ (ds : List (String × String)),
      ((key, v) :: ds).foldl (fillStep settings cbs) st
        = ds.foldl (fillStep settings cbs) (fillStep settings cbs st (key, v)) := by
  constructor
  · have hs : st.form.filter (fun c => c.name == (key, v).1) = [] := h
    simp only [fillStep, hs]
    rfl
  · intro ds
    rfl

/-- Witness for C6: a concrete missing key on a one-control form. -/
theorem fill_missing_field_witness :
    fillStep defaultSettings noCallbacks (initState [ctrlUsername]) ("nope", "x")
      = { form := [ctrlUsername], success := false,
          errors := [JsError.str "Field 'nope' does not exist"],
          diags := [JsError.str "Field 'nope' does not exist"], calls := [] } := by
  have h := (fill_missing_field defaultSettings noCallbacks
      (initState [ctrlUsername]) "nope" "x" (by decide)).1
  rw [h]
  decide

/-- C2 (amended): for a select-one field and a value matching no option,
the behavior depends on `throwOnInvalidSelectOption`: when it is set, the
raised `ReferenceError` (from the out-of-scope `key` in the throw message)
is caught, recorded in `result.errors` and surfaced, and `success` becomes
`false`; when it is unset, `fillSelect` reports not-filled and nothing is
recorded — the state is unchanged, so `success` is not forced to `false`. -/
theorem fill_select_invalid_option (settings : Settings) (cbs : Callbacks)
    (st : FillState) (key v : String) (first : Control) (rest : List Control)
    (hf : st.form.filter (fun c => c.name == key) = first :: rest)
    (hty : first.type = "select-one")
    (hv : first.options.any (fun option => option == v) = false) :
    (getSetting settings "throwOnInvalidSelectOption" = true →
      fillStep settings cbs st (key, v)
        = { st with success := false,
                    errors := st.errors ++ [.refError "key is not defined"],
                    diags := st.diags ++ [.refError "key is not defined"] }) ∧
    (getSetting settings "throwOnInvalidSelectOption" = false →
      fillStep settings cbs st (key, v) = st) := by
  have hs : st.form.filter (fun c => c.name == (key, v).1) = first :: rest := hf
  have hmem : ("select-one" : String) ∈ supportedTypes := by decide
  constructor
  · intro hthrow
    simp [fillStep, hs, hty, hmem, fillSelect, hv, hthrow, caught, recordError]
  · intro hthrow
    simp [fillStep, hs, hty, hmem, fillSelect, hv, hthrow, runCallback]

/-- Witness for C2: the concrete `country` select, invalid value `XX`,
under both settings values. -/
theorem fill_select_invalid_option_witness :
    fillStep defaultSettings noCallbacks (initState [ctrlCountry]) ("country", "XX")
      = { form := [ctrlCountry], success := false,
          errors := [JsError.refError "key is not defined"],
          diags := [JsError.refError "key is not defined"], calls := [] } ∧
    fillStep (setting defaultSettings "throwOnInvalidSelectOption" false)
        noCallbacks (initState [ctrlCountry]) ("country", "XX")
      = initState [ctrlCountry] := by
  constructor
  · have h := (fill_select_invalid_option defaultSettings noCallbacks
        (initState [ctrlCountry]) "country" "XX" ctrlCountry [] (by decide)
        (by decide) (by decide)).1 (by decide)
    rw [h]
    decide
  · exact (fill_select_invalid_option
        (setting defaultSettings "throwOnInvalidSelectOption" false) noCallbacks
        (initState [ctrlCountry]) "country" "XX" ctrlCountry [] (by decide)
        (by decide) (by decide)).2 (by decide)

/-- C3 (amended): for a file field, the empty string fills successfully
(`fillFile` returns `true` and, with no callback registered, the state is
unchanged); a non-empty value records a `FileError` and fails the result
only when `throwOnFileError` is set — when it is unset nothing is recorded
and the state is unchanged. -/
theorem fill_file_behavior (settings : Settings) (cbs : Callbacks)
    (st : FillState) (key v : String) (first : Control) (rest : List Control)
    (hf : st.form.filter (fun c => c.name == key) = first :: rest)
    (hty : first.type = "file") :
    (fillFile settings first "" = Except.ok true) ∧
    (v = "" → cbs "file" = none → fillStep settings cbs st (key, v) = st) ∧
    (v ≠ "" → getSetting settings "throwOnFileError" = true →
      fillStep settings cbs st (key, v)
        = { st with success := false,
                    errors := st.errors
                      ++ [.str ("Field '" ++ first.name ++ "' only supports empty string")],
                    diags := st.diags
                      ++ [.str ("Field '" ++ first.name ++ "' only supports empty string")] }) ∧
    (v ≠ "" → getSetting settings "throwOnFileError" = false →
      fillStep settings cbs st (key, v) = st) := by
  have hs : st.form.filter (fun c => c.name == (key, v).1) = first :: rest := hf
  have hmem : ("file" : String) ∈ supportedTypes := by decide
  refine ⟨by simp [fillFile], ?_, ?_, ?_⟩
  · intro hv hcb
    subst hv
    simp [fillStep, hs, hty, hmem, fillFile, runCallback, hcb]
  · intro hv hthrow
    simp [fillStep, hs, hty, hmem, fillFile, hv, hthrow, caught, recordError]
  · intro hv hthrow
    simp [fillStep, hs, hty, hmem, fillFile, hv, hthrow, runCallback]

/-- Witness for C3: the concrete `avatar` file field with the empty string,
and with a non-empty value under both settings values. -/
theorem fill_file_behavior_witness :
    fillFile defaultSettings ctrlAvatar "" = Except.ok true ∧
    fillStep defaultSettings noCallbacks (initState [ctrlAvatar]) ("avatar", "")
      = initState [ctrlAvatar] ∧
    fillStep defaultSettings noCallbacks (initState [ctrlAvatar]) ("avatar", "x")
      = { form := [ctrlAvatar], success := false,
          errors := [JsError.str "Field 'avatar' only supports empty string"],
          diags := [JsError.str "Field 'avatar' only supports empty string"],
          calls := [] } ∧
    fillStep (setting defaultSettings "throwOnFileError" false) noCallbacks
        (initState [ctrlAvatar]) ("avatar", "x")
      = initState [ctrlAvatar] := by
  refine ⟨(fill_file_behavior defaultSettings noCallbacks (initState [ctrlAvatar])
      "avatar" "" ctrlAvatar [] (by decide) (by decide)).1, ?_, ?_, ?_⟩
  · exact (fill_file_behavior defaultSettings noCallbacks (initState [ctrlAvatar])
        "avatar" "" ctrlAvatar [] (by decide) (by decide)).2.1 rfl rfl
  · have h := (fill_file_behavior defaultSettings noCallbacks (initState [ctrlAvatar])
        "avatar" "x" ctrlAvatar [] (by decide) (by decide)).2.2.1 (by decide) (by decide)
    rw [h]
    decide
  · exact (fill_file_behavior (setting defaultSettings "throwOnFileError" false)
        noCallbacks (initState [ctrlAvatar]) "avatar" "x" ctrlAvatar []
        (by decide) (by decide)).2.2.2 (by decide) (by decide)

/-- C4 (amended): for every supported resolved type — file, checkbox,
radio, select-one, or any default-branch type — whenever the dispatched
strategy reports `filled == true` and a callback is registered for that
type, the callback is invoked synchronously with the primary (first
matched, live, hence possibly just mutated) control and the raw value; a
value thrown by the callback IS caught by the per-key failure boundary: it
is recorded in `result.errors`, surfaced, marks the result failed, and
`fill` returns normally instead of propagating it. Each conjunct covers
one dispatch branch, guarded by that branch's own filled condition. -/
theorem fill_callback_boundary (settings : Settings) (cbs : Callbacks)
    (st : FillState) (key v : String) (first : Control) (rest : List Control)
    (f : Control → String → Except JsError Unit)
    (hf : st.form.filter (fun c => c.name == key) = first :: rest)
    (hcb : cbs first.type = some f) :
    (first.type = "file" → fillFile settings first v = Except.ok true →
      (f first v = Except.ok () →
        fillStep settings cbs st (key, v)
          = { st with calls := st.calls ++ [(first, v)] }) ∧
      (∀ e, f first v = Except.error e →
        fillStep settings cbs st (key, v)
          = { st with calls := st.calls ++ [(first, v)], success := false,
                      errors := st.errors ++ [e], diags := st.diags ++ [e] })) ∧
    (first.type = "checkbox" → (fillCheckbox (first :: rest) v).1 = true →
      (f ((fillCheckbox (first :: rest) v).2.getD 0 first) v = Except.ok () →
        fillStep settings cbs st (key, v)
          = { st with form := writeBack st.form key (fillCheckbox (first :: rest) v).2,
                      calls := st.calls
                        ++ [((fillCheckbox (first :: rest) v).2.getD 0 first, v)] }) ∧
      (∀ e, f ((fillCheckbox (first :: rest) v).2.getD 0 first) v = Except.error e →
        fillStep settings cbs st (key, v)
          = { st with form := writeBack st.form key (fillCheckbox (first :: rest) v).2,
                      calls := st.calls
                        ++ [((fillCheckbox (first :: rest) v).2.getD 0 first, v)],
                      success := false,
                      errors := st.errors ++ [e], diags := st.diags ++ [e] })) ∧
    (first.type = "radio" → (fillRadio (first :: rest) v).1 = true →
      (f ((fillRadio (first :: rest) v).2.getD 0 first) v = Except.ok () →
        fillStep settings cbs st (key, v)
          = { st with form := writeBack st.form key (fillRadio (first :: rest) v).2,
                      calls := st.calls
                        ++ [((fillRadio (first :: rest) v).2.getD 0 first, v)] }) ∧
      (∀ e, f ((fillRadio (first :: rest) v).2.getD 0 first) v = Except.error e →
        fillStep settings cbs st (key, v)
          = { st with form := writeBack st.form key (fillRadio (first :: rest) v).2,
                      calls := st.calls
                        ++ [((fillRadio (first :: rest) v).2.getD 0 first, v)],
                      success := false,
                      errors := st.errors ++ [e], diags := st.diags ++ [e] })) ∧
    (first.type = "select-one" →
      ∀ c', fillSelect settings first v = Except.ok (some c') →
      (f c' v = Except.ok () →
        fillStep settings cbs st (key, v)
          = { st with form := setFirstByName st.form key c',
                      calls := st.calls ++ [(c', v)] }) ∧
      (∀ e, f c' v = Except.error e →
        fillStep settings cbs st (key, v)
          = { st with form := setFirstByName st.form key c',
                      calls := st.calls ++ [(c', v)], success := false,
                      errors := st.errors ++ [e], diags := st.diags ++ [e] })) ∧
    (supportedTypes.contains first.type = true →
      first.type ≠ "file" → first.type ≠ "checkbox" →
      first.type ≠ "radio" → first.type ≠ "select-one" →
      (f (fillField first v) v = Except.ok () →
        fillStep settings cbs st (key, v)
          = { st with form := setFirstByName st.form key (fillField first v),
                      calls := st.calls ++ [(fillField first v, v)] }) ∧
      (∀ e, f (fillField first v) v = Except.error e →
        fillStep settings cbs st (key, v)
          = { st with form := setFirstByName st.form key (fillField first v),
                      calls := st.calls ++ [(fillField first v, v)],
                      success := false,
                      errors := st.errors ++ [e],
                      diags := st.diags ++ [e] })) := by
  have hs : st.form.filter (fun c => c.name == (key, v).1) = first :: rest := hf
  refine ⟨?_, ?_, ?_, ?_, ?_⟩
  · intro hty hfill
    rw [hty] at hcb
    have hmem : ("file" : String) ∈ supportedTypes := by decide
    constructor
    · intro hok
      simp [fillStep, hs, hty, hmem, hfill, runCallback, hcb, hok]
    · intro e herr
      simp [fillStep, hs, hty, hmem, hfill, runCallback, hcb, herr,
        caught, recordError]
  · intro hty hfill
    rw [hty] at hcb
    have hmem : ("checkbox" : String) ∈ supportedTypes := by decide
    constructor
    · intro hok
      rw [List.getD_eq_getElem?_getD] at hok
      simp [fillStep, hs, hty, hmem, hfill, runCallback, hcb, hok]
    · intro e herr
      rw [List.getD_eq_getElem?_getD] at herr
      simp [fillStep, hs, hty, hmem, hfill, runCallback, hcb, herr,
        caught, recordError]
  · intro hty hfill
    rw [hty] at hcb
    have hmem : ("radio" : String) ∈ supportedTypes := by decide
    constructor
    · intro hok
      rw [List.getD_eq_getElem?_getD] at hok
      simp [fillStep, hs, hty, hmem, hfill, runCallback, hcb, hok]
    · intro e herr
      rw [List.getD_eq_getElem?_getD] at herr
      simp [fillStep, hs, hty, hmem, hfill, runCallback, hcb, herr,
        caught, recordError]
  · intro hty c' hsel
    rw [hty] at hcb
    have hmem : ("select-one" : String) ∈ supportedTypes := by decide
    constructor
    · intro hok
      simp [fillStep, hs, hty, hmem, hsel, runCallback, hcb, hok]
    · intro e herr
      simp [fillStep, hs, hty, hmem, hsel, runCallback, hcb, herr,
        caught, recordError]
  · intro hsupp h1 h2 h3 h4
    have hmem : first.type ∈ supportedTypes := by simpa using hsupp
    constructor
    · intro hok
      simp [fillStep, hs, hmem, h1, h2, h3, h4, runCallback, hcb, hok]
    · intro e herr
      simp [fillStep, hs, hmem, h1, h2, h3, h4, runCallback, hcb, herr,
        caught, recordError]

/-- Witness for C4: a text field (default branch) with the throwing
callback, and a checkbox group (group branch) with a succeeding callback. -/
theorem fill_callback_boundary_witness :
    fillStep defaultSettings boomTextCb (initState [ctrlUsername]) ("username", "john")
      = { form := [{ ctrlUsername with value := "john" }], success := false,
          errors := [JsError.str "boom"], diags := [JsError.str "boom"],
          calls := [({ ctrlUsername with value := "john" }, "john")] } ∧
    fillStep defaultSettings okCheckboxCb (initState [ctrlTagA, ctrlTagB, ctrlTagC])
        ("tags", "a,b")
      = { form := [ctrlTagA, { ctrlTagB with checked := true }, ctrlTagC],
          success := true, errors := [], diags := [],
          calls := [(ctrlTagA, "a,b")] } := by
  constructor
  · have h := ((fill_callback_boundary defaultSettings boomTextCb
        (initState [ctrlUsername]) "username" "john" ctrlUsername [] boomFn
        (by decide) rfl).2.2.2.2 (by decide) (by decide) (by decide) (by decide)
        (by decide)).2 (JsError.str "boom") rfl
    rw [h]
    decide
  · have h := ((fill_callback_boundary defaultSettings okCheckboxCb
        (initState [ctrlTagA, ctrlTagB, ctrlTagC]) "tags" "a,b" ctrlTagA
        [ctrlTagB, ctrlTagC] okFn (by decide) rfl).2.1 (by decide) (by decide)).1 rfl
    rw [h]
    decide

theorem lookup_map_overwrite (k : String) (v : Bool) :
    ∀ s : Settings, (s.map (fun p => (p.1, v))).lookup k = (s.lookup k).map (fun _ => v)
  | [] => rfl
  | (a, b) :: rest => by
    simp only [List.map_cons, List.lookup]
    cases h : (k == a) <;> simp [h, lookup_map_overwrite k v rest]

theorem lookup_cons (k : String) (p : String × Bool) (rest : Settings) :
    (p :: rest).lookup k = bif k == p.1 then some p.2 else rest.lookup k := by
  cases p
  rfl

theorem lookup_map_setk (k : String) (v : Bool) :
    ∀ s : Settings,
      (s.map (fun p => if p.1 == k then (k, v) else p)).lookup k
        = (s.lookup k).map (fun _ => v)
  | [] => rfl
  | (a, b) :: rest => by
    rw [List.map_cons]
    cases hb : ((a, b).1 == k) with
    | true =>
      have ha : a = k := by simpa using hb
      subst ha
      simp [lookup_cons]
    | false =>
      rw [if_neg (by simp [hb]), lookup_cons, lookup_cons]
      have hk : (k == a) = false := by
        have h' : ¬ a = k := by simpa using hb
        simp [Ne.symm h']
      rw [hk]
      simp only [cond_false]
      exact lookup_map_setk k v rest

theorem lookup_map_setk_ne (k k' : String) (v : Bool) (hne : k' ≠ k) :
    ∀ s : Settings,
      (s.map (fun p => if p.1 == k then (k, v) else p)).lookup k' = s.lookup k'
  | [] => rfl
  | (a, b) :: rest => by
    rw [List.map_cons]
    cases hb : ((a, b).1 == k) with
    | true =>
      have ha : a = k := by simpa using hb
      subst ha
      rw [if_pos rfl, lookup_cons, lookup_cons]
      have hk : (k' == a) = false := by simp [hne]
      rw [hk]
      simp only [cond_false]
      exact lookup_map_setk_ne a k' v hne rest
    | false =>
      rw [if_neg (by simp [hb]), lookup_cons, lookup_cons]
      cases hk : (k' == a) with
      | true => simp
      | false =>
        simp only [cond_false]
        exact lookup_map_setk_ne k k' v hne rest

theorem lookup_append_or (k : String) :
    ∀ (s t : Settings), (s ++ t).lookup k = (s.lookup k).or (t.lookup k)
  | [], t => by simp
  | (a, b) :: rest, t => by
    simp only [List.cons_append, List.lookup]
    cases h : (k == a) <;> simp [h, lookup_append_or k rest t]

theorem lookup_setKey_self (s : Settings) (k : String) (v : Bool) :
    (setKey s k v).lookup k = some v := by
  unfold setKey
  split
  · rename_i hsome
    rw [lookup_map_setk]
    obtain ⟨b, hb⟩ := Option.isSome_iff_exists.mp hsome
    rw [hb]
    rfl
  · rename_i hnone
    rw [lookup_append_or]
    have hb : s.lookup k = none := by
      cases h : s.lookup k
      · rfl
      · exact absurd (by simp [h]) hnone
    simp [hb, List.lookup]

theorem lookup_setKey_ne (s : Settings) (k k' : String) (v : Bool)
    (hne : k' ≠ k) : (setKey s k v).lookup k' = s.lookup k' := by
  unfold setKey
  split
  · exact lookup_map_setk_ne k k' v hne s
  · rw [lookup_append_or]
    have hb : (k' == k) = false := by simp [hne]
    simp [List.lookup, hb]

theorem fillStep_settings_congr (s₁ s₂ : Settings)
    (h1 : getSetting s₁ "throwOnMissingField" = getSetting s₂ "throwOnMissingField")
    (h2 : getSetting s₁ "throwOnUnsupportedType" = getSetting s₂ "throwOnUnsupportedType")
    (h3 : getSetting s₁ "throwOnFileError" = getSetting s₂ "throwOnFileError")
    (h4 : getSetting s₁ "throwOnInvalidSelectOption" = getSetting s₂ "throwOnInvalidSelectOption") :
    fillStep s₁ = fillStep s₂ := by
  funext cbs st kv
  simp only [fillStep, fillFile, fillSelect, h1, h2, h3, h4]

theorem fill_settings_congr (s₁ s₂ : Settings)
    (h1 : getSetting s₁ "throwOnMissingField" = getSetting s₂ "throwOnMissingField")
    (h2 : getSetting s₁ "throwOnUnsupportedType" = getSetting s₂ "throwOnUnsupportedType")
    (h3 : getSetting s₁ "throwOnFileError" = getSetting s₂ "throwOnFileError")
    (h4 : getSetting s₁ "throwOnInvalidSelectOption" = getSetting s₂ "throwOnInvalidSelectOption")
    (cbs : Callbacks) (form : List Control) (data : List (String × String)) :
    fill s₁ cbs form data = fill s₂ cbs form data := by
  unfold fill
  rw [fillStep_settings_congr s₁ s₂ h1 h2 h3 h4]

/-- C7: `setting('strict', v)` makes every one of the four recognized
settings read `v` afterward, and additionally writes a literal `strict`
entry into the settings mapping; that entry is inert — changing or adding a
`strict` entry never changes the behavior of `fill`, which reads only the
four recognized keys. -/
theorem setting_strict_spec (s : Settings) (v : Bool)
    (h : ∀ k ∈ recognizedSettings, (s.lookup k).isSome = true) :
    (∀ k ∈ recognizedSettings, getSetting (setting s "strict" v) k = v) ∧
    ((setting s "strict" v).lookup "strict" = some v) ∧
    (∀ (s' : Settings) (b : Bool) (cbs : Callbacks) (form : List Control)
       (data : List (String × String)),
       fill (setKey s' "strict" b) cbs form data = fill s' cbs form data) := by
  have hst : setting s "strict" v = setKey (s.map (fun p => (p.1, v))) "strict" v := by
    simp [setting]
  have hread : ∀ (s' : Settings) (b : Bool) (k : String), k ≠ "strict" →
      getSetting (setKey s' "strict" b) k = getSetting s' k := by
    intro s' b k hk
    unfold getSetting
    rw [lookup_setKey_ne s' "strict" k b hk]
  refine ⟨?_, ?_, ?_⟩
  · intro k hk
    have hne : k ≠ "strict" := by
      have hk' : k = "throwOnMissingField" ∨ k = "throwOnUnsupportedType"
          ∨ k = "throwOnFileError" ∨ k = "throwOnInvalidSelectOption" := by
        simpa [recognizedSettings] using hk
      rcases hk' with h' | h' | h' | h' <;> subst h' <;> decide
    rw [hst]
    unfold getSetting
    rw [lookup_setKey_ne _ _ _ _ hne, lookup_map_overwrite]
    obtain ⟨b, hb⟩ := Option.isSome_iff_exists.mp (h k hk)
    rw [hb]
    rfl
  · rw [hst]
    exact lookup_setKey_self _ _ _
  · intro s' b cbs form data
    exact fill_settings_congr _ _ (hread s' b _ (by decide)) (hread s' b _ (by decide))
      (hread s' b _ (by decide)) (hread s' b _ (by decide)) cbs form data

/-- Witness for C7: the strict write on the default settings. -/
theorem setting_strict_spec_witness :
    getSetting (setting defaultSettings "strict" false) "throwOnFileError" = false ∧
    (setting defaultSettings "strict" false).lookup "strict" = some false ∧
    fill (setKey defaultSettings "strict" true) noCallbacks [ctrlUsername]
        [("username", "x")]
      = fill defaultSettings noCallbacks [ctrlUsername] [("username", "x")] :=
  ⟨(setting_strict_spec defaultSettings false (by decide)).1 "throwOnFileError" (by decide),
   (setting_strict_spec defaultSettings false (by decide)).2.1,
   (setting_strict_spec defaultSettings false (by decide)).2.2 defaultSettings true
      noCallbacks [ctrlUsername] [("username", "x")]⟩

theorem runCallback_form (cbs : Callbacks) (st : FillState) (ty : String)
    (node : Control) (value : String) (filled : Bool) :
    (runCallback cbs st ty node value filled).form = st.form := by
  simp only [runCallback]
  split
  · split
    · split <;> rfl
    · rfl
  · rfl

theorem getElem?_setFirstByName_ne (nm : String) (c' : Control) :
    ∀ (l : List Control) (i : Nat), i ≠ l.findIdx (fun c => c.name == nm) →
      (setFirstByName l nm c')[i]? = l[i]?
  | [], _, _ => rfl
  | c :: rest, i, h => by
    rw [List.findIdx_cons] at h
    simp only [setFirstByName]
    cases hc : (c.name == nm) with
    | false =>
      rw [hc] at h
      simp only [cond_false] at h
      cases i with
      | zero => simp [hc]
      | succ j =>
        simp only [hc, Bool.false_eq_true, if_false, List.getElem?_cons_succ]
        exact getElem?_setFirstByName_ne nm c' rest j (fun hj => h (by rw [hj]))
    | true =>
      rw [hc] at h
      simp only [cond_true] at h
      cases i with
      | zero => exact absurd rfl h
      | succ j => simp [hc]

theorem getElem?_setFirstByName_of_name_ne (nm : String) (c' : Control) :
    ∀ (l : List Control) (i : Nat) (c : Control), l[i]? = some c → c.name ≠ nm →
      (setFirstByName l nm c')[i]? = some c
  | [], i, c, h, _ => by simp at h
  | d :: rest, i, c, h, hne => by
    simp only [setFirstByName]
    cases hc : (d.name == nm) with
    | false =>
      cases i with
      | zero => simpa [hc] using h
      | succ j =>
        simp only [hc, Bool.false_eq_true, if_false, List.getElem?_cons_succ]
        exact getElem?_setFirstByName_of_name_ne nm c' rest j c (by simpa using h) hne
    | true =>
      cases i with
      | zero =>
        simp only [List.getElem?_cons_zero, Option.some_inj] at h
        exact absurd (h ▸ (by simpa using hc)) hne
      | succ j => simpa [hc] using h

theorem getElem?_writeBack_of_name_ne (nm : String) :
    ∀ (l : List Control) (news : List Control) (i : Nat) (c : Control),
      l[i]? = some c → c.name ≠ nm → (writeBack l nm news)[i]? = some c
  | [], _, _, _, h, _ => by simp at h
  | d :: rest, news, i, c, h, hne => by
    simp only [writeBack]
    cases hc : (d.name == nm) with
    | false =>
      cases i with
      | zero => simpa [hc] using h
      | succ j =>
        simp only [hc, Bool.false_eq_true, if_false, List.getElem?_cons_succ]
        exact getElem?_writeBack_of_name_ne nm rest news j c (by simpa using h) hne
    | true =>
      cases news with
      | nil =>
        cases i with
        | zero => simpa [hc] using h
        | succ j =>
          simp only [hc, if_true, List.getElem?_cons_succ]
          exact getElem?_writeBack_of_name_ne nm rest [] j c (by simpa using h) hne
      | cons n ns =>
        cases i with
        | zero =>
          simp only [List.getElem?_cons_zero, Option.some_inj] at h
          exact absurd (h ▸ (by simpa using hc)) hne
        | succ j =>
          simp only [hc, if_true, List.getElem?_cons_succ]
          exact getElem?_writeBack_of_name_ne nm rest ns j c (by simpa using h) hne

theorem fillStep_preserves_other_names (settings : Settings) (cbs : Callbacks)
    (st : FillState) (kv : String × String) (i : Nat) (c : Control)
    (hc : st.form[i]? = some c) (hne : c.name ≠ kv.1) :
    (fillStep settings cbs st kv).form[i]? = some c := by
  simp only [fillStep]
  split
  · exact hc
  · split
    · exact hc
    · split
      · split
        · exact hc
        · rw [runCallback_form]
          exact hc
      · split
        · rw [runCallback_form]
          exact getElem?_writeBack_of_name_ne _ _ _ _ _ hc hne
        · split
          · rw [runCallback_form]
            exact getElem?_writeBack_of_name_ne _ _ _ _ _ hc hne
          · split
            · split
              · exact hc
              · rw [runCallback_form]
                exact hc
              · rw [runCallback_form]
                exact getElem?_setFirstByName_of_name_ne _ _ _ _ _ hc hne
            · rw [runCallback_form]
              exact getElem?_setFirstByName_of_name_ne _ _ _ _ _ hc hne

theorem fill_loop_preserves (settings : Settings) (cbs : Callbacks) :
    ∀ (data : List (String × String)) (st : FillState) (i : Nat) (c : Control),
      st.form[i]? = some c → (∀ kv ∈ data, kv.1 ≠ c.name) →
      ((data.foldl (fillStep settings cbs) st).form)[i]? = some c
  | [], _, _, _, hc, _ => hc
  | kv :: rest, st, i, c, hc, hd =>
    fill_loop_preserves settings cbs rest (fillStep settings cbs st kv) i c
      (fillStep_preserves_other_names settings cbs st kv i c hc
        (hd kv (List.mem_cons_self kv rest)).symm)
      (fun kv' h' => hd kv' (List.mem_cons_of_mem kv h'))

/-- C10: for a field group whose resolved type is supported and is neither
checkbox nor radio, a fill step changes at most the first matched control
(every other index of the form reads back unchanged); and a control whose
name is matched by no key of the data mapping is unchanged by the whole
`fill` call. -/
theorem fill_frame (settings : Settings) (cbs : Callbacks) :
    (∀ (st : FillState) (key v : String) (first : Control)
       (rest : List Control) (i : Nat),
       st.form.filter (fun c => c.name == key) = first :: rest →
       supportedTypes.contains first.type = true →
       first.type ≠ "checkbox" → first.type ≠ "radio" →
       i ≠ st.form.findIdx (fun c => c.name == key) →
       (fillStep settings cbs st (key, v)).form[i]? = st.form[i]?) ∧
    (∀ (form : List Control) (data : List (String × String)) (i : Nat)
       (c : Control),
       form[i]? = some c → (∀ kv ∈ data, kv.1 ≠ c.name) →
       (fill settings cbs form data).form[i]? = some c) := by
  constructor
  · intro st key v first rest i hf hsupp h2 h3 hi
    have hs : st.form.filter (fun c => c.name == (key, v).1) = first :: rest := hf
    simp only [fillStep, hs, hsupp, Bool.not_true, Bool.false_eq_true, if_false]
    split
    · split
      · rfl
      · rw [runCallback_form]
    · split
      · rename_i hcond
        exact absurd (by simpa using hcond) h2
      · split
        · rename_i hcond
          exact absurd (by simpa using hcond) h3
        · split
          · split
            · rfl
            · rw [runCallback_form]
            · rw [runCallback_form]
              exact getElem?_setFirstByName_ne _ _ _ _ hi
          · rw [runCallback_form]
            exact getElem?_setFirstByName_ne _ _ _ _ hi
  · intro form data i c hc hd
    exact fill_loop_preserves settings cbs data (initState form) i c hc hd

/-- Witness for C10: a two-control form where only the first control is
named by the data. -/
theorem fill_frame_witness :
    (fillStep defaultSettings noCallbacks (initState [ctrlUsername, ctrlNickname])
        ("username", "x")).form[1]?
      = (initState [ctrlUsername, ctrlNickname]).form[1]? ∧
    (fill defaultSettings noCallbacks [ctrlUsername, ctrlNickname]
        [("username", "x")]).form[1]? = some ctrlNickname :=
  ⟨(fill_frame defaultSettings noCallbacks).1 (initState [ctrlUsername, ctrlNickname])
      "username" "x" ctrlUsername [] 1 (by decide) (by decide) (by decide)
      (by decide) (by decide),
   (fill_frame defaultSettings noCallbacks).2 [ctrlUsername, ctrlNickname]
      [("username", "x")] 1 ctrlNickname (by decide) (by decide)⟩

/-- C8 (code bug): the error recorded for an invalid select option is the
`ReferenceError` raised by the out-of-scope `key` in `fillSelect`; its text
names neither the field nor the value, while the missing-field error text
does name the field. -/
theorem fill_select_error_text_lacks_field_name :
    (fill defaultSettings noCallbacks [ctrlCountry] [("country", "XX")]).errors
        = [JsError.refError "key is not defined"] ∧
    (fill defaultSettings noCallbacks [ctrlUsername] [("nope", "x")]).errors
        = [JsError.str ("Field '" ++ "nope" ++ "' does not exist")] := by
  refine ⟨rfl, rfl⟩

end Data2Form
